import Mathlib

/-!
Verification of `haystack/components/generators/azure.py`
(`AzureOpenAIGenerator`): a shallow embedding of the component's
constructor, `to_dict` serializer and `from_dict` deserializer, together
with proofs of the specified properties.

The environment (`os.environ`) is passed explicitly.  Python exceptions
are modelled with `Except`.  Callables (the streaming callback and the
Azure AD token provider) are modelled as opaque handles looked up in a
name registry, following the framework's callable-naming helpers.
-/

/-- The process environment, `os.environ`: a partial map from variable
names to string values. -/
def Env : Type := String → Option String

/-- Errors raised during construction or (de)serialization.  In Python
most of these are `ValueError` with distinct messages; the constructors
keep the distinct origins apart: the two explicit configuration `raise`s
in `__init__`, the `float()`/`int()` parse failures, strict-secret or
callable resolution failures, and serialization/type errors. -/
inductive PyError where
  | configurationError (msg : String)
  | parseError (msg : String)
  | resolutionError (msg : String)
  | serializationError (msg : String)
  | typeError (msg : String)
deriving DecidableEq, Repr

/-- Modelled from the spec: the secret-reference abstraction
(`haystack.utils.Secret`, not under `src/`).  "A polymorphic value that
is either a literal value or a named-environment-variable lookup,
resolved only at the point of use"; the environment-variable form
carries a strictness flag (`Secret.from_env_var(name, strict=...)`). -/
inductive Secret where
  | token (value : String)
  | envVar (name : String) (strict : Bool)
deriving DecidableEq, Repr

/-- Modelled from the spec: resolution of a secret reference ("a
deferred-resolution credential holder ... that yields its value only on
demand").  A strict environment-variable secret whose variable is unset
fails with a resolution error; a non-strict one yields no value. -/
def Secret.resolve_value (s : Secret) (env : Env) : Except PyError (Option String) :=
  match s with
  | .token v => .ok (some v)
  | .envVar n strict =>
    match env n with
    | some v => .ok (some v)
    | none =>
      if strict then .error (.resolutionError n) else .ok none

/-- The serialized form of an environment-variable secret reference: the
variable's name and the strictness flag, never its value. -/
structure SecretDict where
  type : String
  env_var : String
  strict : Bool
deriving DecidableEq, Repr

/-- Modelled from the spec: serializing a secret reference emits "only
secret references that can be re-resolved later", "never the resolved
value"; a literal token must not leak into serialized form, so
serializing it fails. -/
def Secret.to_dict : Secret → Except PyError SecretDict
  | .token _ => .error (.serializationError "Cannot serialize token-based secret.")
  | .envVar n strict => .ok { type := "env_var", env_var := n, strict := strict }

/-- Modelled from the spec: reconstructing a secret reference from its
serialized form (`deserialize_secrets_inplace`). -/
def Secret.from_dict (d : SecretDict) : Except PyError Secret :=
  if d.type = "env_var" then .ok (.envVar d.env_var d.strict)
  else .error (.typeError "unknown secret type")

/-- An invocable handle, as stored for the streaming callback and the
AD token provider; identified by its resolvable qualified name. -/
structure CallableHandle where
  name : String
deriving DecidableEq, Repr

/-- Modelled from the spec: `serializeCallable(fn) -> string`, the
callable's resolvable name. -/
def serialize_callable (h : CallableHandle) : String := h.name

/-- Modelled from the spec: `deserializeCallable(name) -> fn`, a
named-registry lookup "failing if the named handler cannot be
located". -/
def deserialize_callable (registry : List String) (name : String) :
    Except PyError CallableHandle :=
  if name ∈ registry then .ok ⟨name⟩
  else .error (.resolutionError name)

/-- Python string truthiness for `a or b` on optional strings: `none`
and the empty string are falsy. -/
def pyOrStr : Option String → Option String → Option String
  | some s, b => if s = "" then b else some s
  | none, b => b

/-- Python truthiness for `a or d` where `a` is an optional string and
`d` a string default: `None` and `""` fall back to the default. -/
def pyOrStrD : Option String → String → String
  | some s, d => if s = "" then d else s
  | none, d => d

/-- Python truthiness for `a or d` on optional maps: `None` and the
empty map fall back to the default. -/
def pyOrDict : Option (List (String × String)) → List (String × String) →
    List (String × String)
  | some m, d => if m = [] then d else m
  | none, d => d

/-- Digits of a decimal numeral to a natural number; `none` when the
list is empty or contains a non-digit. -/
def digitsToNat (l : List Char) : Option Nat :=
  if l = [] then none
  else if l.all Char.isDigit then
    some (l.foldl (fun a c => a * 10 + (c.toNat - 48)) 0)
  else none

/-- Leading and trailing whitespace removal, as Python's numeric
constructors perform on their string argument. -/
def trimChars (l : List Char) : List Char :=
  ((l.dropWhile Char.isWhitespace).reverse.dropWhile Char.isWhitespace).reverse

/-- Split a numeral at its decimal point: the integer part, and the
fractional part when a point is present; `none` when a second point
occurs. -/
def splitDotAux : List Char → List Char → Option (List Char × Option (List Char))
  | [], acc => some (acc.reverse, none)
  | c :: rest, acc =>
    if c = '.' then
      if rest.contains '.' then none else some (acc.reverse, some rest)
    else splitDotAux rest (c :: acc)

/-- Python's `float(s)` on plain decimal numerals (optional sign,
integer part, optional fractional part), yielding an exact rational;
`none` models the `ValueError` parse failure. -/
def pyFloat (s : String) : Option ℚ :=
  let t := trimChars s.data
  let signAndBody : Bool × List Char :=
    match t with
    | '-' :: rest => (true, rest)
    | '+' :: rest => (false, rest)
    | _ => (false, t)
  let signed : Int → Int := fun n => if signAndBody.1 then -n else n
  match splitDotAux signAndBody.2 [] with
  | none => none
  | some (ip, none) => (digitsToNat ip).map (fun n => mkRat (signed n) 1)
  | some (ip, some fp) =>
    if ip = [] ∧ fp = [] then none
    else
      match (if ip = [] then some 0 else digitsToNat ip),
            (if fp = [] then some 0 else digitsToNat fp) with
      | some ipn, some fpn =>
        some (mkRat (signed (ipn * 10 ^ fp.length + fpn)) (10 ^ fp.length))
      | _, _ => none

/-- Python's `int(s)` on plain decimal numerals (optional sign); `none`
models the `ValueError` parse failure. -/
def pyInt (s : String) : Option Int :=
  match trimChars s.data with
  | '-' :: rest => (digitsToNat rest).map (fun n => -(n : Int))
  | '+' :: rest => (digitsToNat rest).map (fun n => (n : Int))
  | l => (digitsToNat l).map (fun n => (n : Int))

/-- The parameters the `AzureOpenAI` client constructor receives
(azure.py lines 147-158).  The client is an external SDK object; the
component's contract is exactly which values are passed to it, in
particular the *resolved* secret values. -/
structure AzureOpenAI where
  api_version : Option String
  azure_endpoint : String
  azure_deployment : Option String
  azure_ad_token_provider : Option CallableHandle
  api_key : Option String
  azure_ad_token : Option String
  organization : Option String
  timeout : ℚ
  max_retries : Int
  default_headers : List (String × String)
deriving DecidableEq, Repr

/-- The constructed component: the fields `__init__` stores on `self`
(azure.py lines 132-145) plus the built client (lines 147-158).
`generation_kwargs` and `default_headers` are open-ended string maps;
`model` is the deployment name with the documented default. -/
structure AzureOpenAIGenerator where
  api_key : Option Secret
  azure_ad_token : Option Secret
  generation_kwargs : List (String × String)
  system_prompt : Option String
  streaming_callback : Option CallableHandle
  api_version : Option String
  azure_endpoint : String
  azure_deployment : Option String
  organization : Option String
  model : String
  timeout : ℚ
  max_retries : Int
  default_headers : List (String × String)
  azure_ad_token_provider : Option CallableHandle
  client : AzureOpenAI
deriving DecidableEq, Repr

/-- The arguments of `AzureOpenAIGenerator.__init__` with their Python
default values (azure.py lines 57-72): omitting an argument means using
the field default here; passing `None` explicitly is the `none` value. -/
structure InitArgs where
  azure_endpoint : Option String := none
  api_version : Option String := some "2023-05-15"
  azure_deployment : Option String := some "gpt-4o-mini"
  api_key : Option Secret := some (.envVar "AZURE_OPENAI_API_KEY" false)
  azure_ad_token : Option Secret := some (.envVar "AZURE_OPENAI_AD_TOKEN" false)
  organization : Option String := none
  streaming_callback : Option CallableHandle := none
  system_prompt : Option String := none
  timeout : Option ℚ := none
  max_retries : Option Int := none
  generation_kwargs : Option (List (String × String)) := none
  default_headers : Option (List (String × String)) := none
  azure_ad_token_provider : Option CallableHandle := none
deriving DecidableEq, Repr

/-- Endpoint resolution (azure.py lines 123-125):
`azure_endpoint = azure_endpoint or os.environ.get("AZURE_OPENAI_ENDPOINT")`
followed by `if not azure_endpoint: raise ValueError(...)`. -/
def resolveEndpoint (arg : Option String) (env : Env) : Except PyError String :=
  match pyOrStr arg (env "AZURE_OPENAI_ENDPOINT") with
  | some s =>
    if s = "" then
      .error (.configurationError
        "Please provide an Azure endpoint or set the environment variable AZURE_OPENAI_ENDPOINT.")
    else .ok s
  | none =>
    .error (.configurationError
      "Please provide an Azure endpoint or set the environment variable AZURE_OPENAI_ENDPOINT.")

/-- Timeout resolution (azure.py line 142):
`timeout if timeout is not None else float(os.environ.get("OPENAI_TIMEOUT", "30.0"))`. -/
def resolveTimeout (arg : Option ℚ) (env : Env) : Except PyError ℚ :=
  match arg with
  | some t => .ok t
  | none =>
    match pyFloat ((env "OPENAI_TIMEOUT").getD "30.0") with
    | some q => .ok q
    | none => .error (.parseError "could not convert string to float")

/-- Retry-count resolution (azure.py line 143):
`max_retries if max_retries is not None else int(os.environ.get("OPENAI_MAX_RETRIES", "5"))`. -/
def resolveMaxRetries (arg : Option Int) (env : Env) : Except PyError Int :=
  match arg with
  | some r => .ok r
  | none =>
    match pyInt ((env "OPENAI_MAX_RETRIES").getD "5") with
    | some r => .ok r
    | none => .error (.parseError "invalid literal for int with base 10")

/-- Resolution of an optional secret reference at the client-building
site (azure.py lines 152-153):
`api_key.resolve_value() if api_key is not None else None`. -/
def resolveOptSecret (s : Option Secret) (env : Env) : Except PyError (Option String) :=
  match s with
  | none => .ok none
  | some s => s.resolve_value env

/-- The field assignments of `__init__` (azure.py lines 132-158), given
the already-resolved endpoint, timeout, retry count and secret values:
the configuration fields keep the unresolved references, the client
receives the resolved values. -/
def AzureOpenAIGenerator.make (p : InitArgs) (azure_endpoint : String)
    (timeout : ℚ) (max_retries : Int)
    (api_key_value azure_ad_token_value : Option String) :
    AzureOpenAIGenerator :=
  {
      api_key := p.api_key
      azure_ad_token := p.azure_ad_token
      generation_kwargs := pyOrDict p.generation_kwargs []
      system_prompt := p.system_prompt
      streaming_callback := p.streaming_callback
      api_version := p.api_version
      azure_endpoint := azure_endpoint
      azure_deployment := p.azure_deployment
      organization := p.organization
      model := pyOrStrD p.azure_deployment "gpt-4o-mini"
      timeout := timeout
      max_retries := max_retries
      default_headers := pyOrDict p.default_headers []
      azure_ad_token_provider := p.azure_ad_token_provider
      client := {
        api_version := p.api_version
        azure_endpoint := azure_endpoint
        azure_deployment := p.azure_deployment
        azure_ad_token_provider := p.azure_ad_token_provider
        api_key := api_key_value
        azure_ad_token := azure_ad_token_value
        organization := p.organization
        timeout := timeout
        max_retries := max_retries
        default_headers := pyOrDict p.default_headers []
      }
  }

/-- `AzureOpenAIGenerator.__init__` (azure.py lines 57-158): resolves
the endpoint, validates that at least one credential reference is
present, resolves numeric defaults from the environment, stores the
configuration fields, and builds the client with the *resolved* secret
values. -/
def AzureOpenAIGenerator.init (env : Env) (p : InitArgs) :
    Except PyError AzureOpenAIGenerator :=
  match resolveEndpoint p.azure_endpoint env with
  | .error e => .error e
  | .ok azure_endpoint =>
  if p.api_key.isNone && p.azure_ad_token.isNone then
    .error (.configurationError
      "Please provide an API key or an Azure Active Directory token.")
  else
  match resolveTimeout p.timeout env with
  | .error e => .error e
  | .ok timeout =>
  match resolveMaxRetries p.max_retries env with
  | .error e => .error e
  | .ok max_retries =>
  match resolveOptSecret p.api_key env with
  | .error e => .error e
  | .ok api_key_value =>
  match resolveOptSecret p.azure_ad_token env with
  | .error e => .error e
  | .ok azure_ad_token_value =>
    .ok (AzureOpenAIGenerator.make p azure_endpoint timeout max_retries
      api_key_value azure_ad_token_value)

/-- The fully qualified class name the framework's `default_to_dict`
writes into the document's `type` field. -/
def azureGeneratorTypeName : String :=
  "haystack.components.generators.azure.AzureOpenAIGenerator"

/-- The `init_parameters` mapping produced by `to_dict` (azure.py lines
171-186): one entry per configuration field, in the order the source
passes them to `default_to_dict`.  Secrets appear in their serialized
reference form, callables as their names; any of them may be null. -/
structure InitParameters where
  azure_endpoint : Option String
  azure_deployment : Option String
  organization : Option String
  api_version : Option String
  streaming_callback : Option String
  generation_kwargs : Option (List (String × String))
  system_prompt : Option String
  api_key : Option SecretDict
  azure_ad_token : Option SecretDict
  timeout : Option ℚ
  max_retries : Option Int
  default_headers : Option (List (String × String))
  azure_ad_token_provider : Option String
deriving DecidableEq, Repr

/-- Modelled from the spec: the framework's `default_to_dict` wraps the
init parameters in "a named-type wrapper containing an `initParameters`
mapping". -/
structure SerializedComponent where
  type : String
  init_parameters : InitParameters
deriving DecidableEq, Repr

/-- A generic value of the serialization document, used to render the
`init_parameters` mapping as a flat key-value list. -/
inductive JValue where
  | null
  | str (s : String)
  | num (q : ℚ)
  | int (n : Int)
  | strMap (m : List (String × String))
  | secretRef (d : SecretDict)
deriving DecidableEq, Repr

/-- Lift an optional atom into a nullable document value. -/
def jOpt {α : Type} (f : α → JValue) : Option α → JValue
  | none => .null
  | some a => f a

/-- The `init_parameters` mapping rendered as the flat key-value
document, in the order `to_dict` passes the keyword arguments. -/
def InitParameters.pairs (ip : InitParameters) : List (String × JValue) :=
  [("azure_endpoint", jOpt .str ip.azure_endpoint),
   ("azure_deployment", jOpt .str ip.azure_deployment),
   ("organization", jOpt .str ip.organization),
   ("api_version", jOpt .str ip.api_version),
   ("streaming_callback", jOpt .str ip.streaming_callback),
   ("generation_kwargs", jOpt .strMap ip.generation_kwargs),
   ("system_prompt", jOpt .str ip.system_prompt),
   ("api_key", jOpt .secretRef ip.api_key),
   ("azure_ad_token", jOpt .secretRef ip.azure_ad_token),
   ("timeout", jOpt .num ip.timeout),
   ("max_retries", jOpt .int ip.max_retries),
   ("default_headers", jOpt .strMap ip.default_headers),
   ("azure_ad_token_provider", jOpt .str ip.azure_ad_token_provider)]

/-- Serialization of an optional secret field of `to_dict`
(azure.py lines 180-181):
`self.api_key.to_dict() if self.api_key is not None else None`. -/
def serializeOptSecret : Option Secret → Except PyError (Option SecretDict)
  | none => .ok none
  | some s => (s.to_dict).map some

/-- `AzureOpenAIGenerator.to_dict` (azure.py lines 160-186): converts
the callables to their names, the secrets to their serialized reference
forms, and copies every other configuration field verbatim into the
`init_parameters` mapping of the typed wrapper.  The client is not
consulted. -/
def AzureOpenAIGenerator.to_dict (c : AzureOpenAIGenerator) :
    Except PyError SerializedComponent :=
  let callback_name := c.streaming_callback.map serialize_callable
  let azure_ad_token_provider_name := c.azure_ad_token_provider.map serialize_callable
  match serializeOptSecret c.api_key with
  | .error e => .error e
  | .ok api_key_dict =>
  match serializeOptSecret c.azure_ad_token with
  | .error e => .error e
  | .ok azure_ad_token_dict =>
    .ok {
      type := azureGeneratorTypeName
      init_parameters := {
        azure_endpoint := some c.azure_endpoint
        azure_deployment := c.azure_deployment
        organization := c.organization
        api_version := c.api_version
        streaming_callback := callback_name
        generation_kwargs := some c.generation_kwargs
        system_prompt := c.system_prompt
        api_key := api_key_dict
        azure_ad_token := azure_ad_token_dict
        timeout := some c.timeout
        max_retries := some c.max_retries
        default_headers := some c.default_headers
        azure_ad_token_provider := azure_ad_token_provider_name
      }
    }

/-- Deserialization of an optional serialized secret
(`deserialize_secrets_inplace` on one key; null stays null). -/
def deserializeOptSecret : Option SecretDict → Except PyError (Option Secret)
  | none => .ok none
  | some d => (Secret.from_dict d).map some

/-- Modelled from the spec: deserialization of an optional serialized
callable name, "resolved back to invocable handles by name, failing if
the named handler cannot be located"; null stays null. -/
def deserializeOptCallable (registry : List String) :
    Option String → Except PyError (Option CallableHandle)
  | none => .ok none
  | some n => (deserialize_callable registry n).map some

/-- `AzureOpenAIGenerator.from_dict` (azure.py lines 188-208):
reconstructs the secret references, resolves the callable names against
the registry, checks the document's type tag, and delegates to
`__init__` with the reconstructed parameters, so construction's
validation rules apply identically. -/
def AzureOpenAIGenerator.from_dict (env : Env) (registry : List String)
    (d : SerializedComponent) : Except PyError AzureOpenAIGenerator :=
  match deserializeOptSecret d.init_parameters.api_key with
  | .error e => .error e
  | .ok api_key =>
  match deserializeOptSecret d.init_parameters.azure_ad_token with
  | .error e => .error e
  | .ok azure_ad_token =>
  match deserializeOptCallable registry d.init_parameters.streaming_callback with
  | .error e => .error e
  | .ok streaming_callback =>
  match deserializeOptCallable registry d.init_parameters.azure_ad_token_provider with
  | .error e => .error e
  | .ok azure_ad_token_provider =>
  if d.type = azureGeneratorTypeName then
    AzureOpenAIGenerator.init env {
      azure_endpoint := d.init_parameters.azure_endpoint
      api_version := d.init_parameters.api_version
      azure_deployment := d.init_parameters.azure_deployment
      api_key := api_key
      azure_ad_token := azure_ad_token
      organization := d.init_parameters.organization
      streaming_callback := streaming_callback
      system_prompt := d.init_parameters.system_prompt
      timeout := d.init_parameters.timeout
      max_retries := d.init_parameters.max_retries
      generation_kwargs := d.init_parameters.generation_kwargs
      default_headers := d.init_parameters.default_headers
      azure_ad_token_provider := azure_ad_token_provider
    }
  else .error (.typeError "invalid component type")

/-- An environment built from a finite list of variable bindings. -/
def envOf (l : List (String × String)) : Env :=
  fun n => (l.find? (fun kv => kv.1 = n)).map Prod.snd

/-- The empty environment: no variable is set. -/
def envEmpty : Env := fun _ => none

/-- Concrete example: construction arguments with only the endpoint
supplied; every other argument keeps its Python default. -/
def exampleArgs : InitArgs := { azure_endpoint := some "https://e" }

/-- Concrete example: an environment binding the numeric fallback
variables. -/
def exampleEnv : Env := envOf [("OPENAI_TIMEOUT", "45"), ("OPENAI_MAX_RETRIES", "3")]

/-- Concrete example: the component `exampleArgs` constructs in
`exampleEnv`. -/
def exampleComponent : AzureOpenAIGenerator :=
  AzureOpenAIGenerator.make exampleArgs "https://e" 45 3 none none

/-- Concrete example: the document `exampleComponent` serializes to. -/
def exampleDoc : SerializedComponent :=
  { type := azureGeneratorTypeName
    init_parameters := {
      azure_endpoint := some "https://e"
      azure_deployment := some "gpt-4o-mini"
      organization := none
      api_version := some "2023-05-15"
      streaming_callback := none
      generation_kwargs := some []
      system_prompt := none
      api_key := some { type := "env_var", env_var := "AZURE_OPENAI_API_KEY", strict := false }
      azure_ad_token := some { type := "env_var", env_var := "AZURE_OPENAI_AD_TOKEN", strict := false }
      timeout := some 45
      max_retries := some 3
      default_headers := some []
      azure_ad_token_provider := none } }

/-- Concrete example: arguments with explicit `None` credentials. -/
def noCredArgs : InitArgs :=
  { azure_endpoint := some "https://e", api_key := none, azure_ad_token := none }

/-- Concrete example: arguments with an explicit endpoint, timeout and
retry count, so that construction reads the environment only to resolve
the secret references. -/
def pinnedArgs : InitArgs :=
  { azure_endpoint := some "https://e", timeout := some 30, max_retries := some 5 }

/-- Concrete example: arguments with `api_key` explicitly `None` and
only the default ad-token reference. -/
def adTokenArgs : InitArgs := { azure_endpoint := some "https://e", api_key := none }

/-- Concrete example: arguments passing `None` for the deployment and
leaving the two maps unset. -/
def noDeploymentArgs : InitArgs :=
  { azure_endpoint := some "https://e", azure_deployment := none }

/-- Concrete example: the component `noDeploymentArgs` constructs in the
empty environment. -/
def noDeploymentComponent : AzureOpenAIGenerator :=
  AzureOpenAIGenerator.make noDeploymentArgs "https://e" 30 5 none none

/-- Concrete example: the document `noDeploymentComponent` serializes
to. -/
def noDeploymentDoc : SerializedComponent :=
  { type := azureGeneratorTypeName
    init_parameters := {
      azure_endpoint := some "https://e"
      azure_deployment := none
      organization := none
      api_version := some "2023-05-15"
      streaming_callback := none
      generation_kwargs := some []
      system_prompt := none
      api_key := some { type := "env_var", env_var := "AZURE_OPENAI_API_KEY", strict := false }
      azure_ad_token := some { type := "env_var", env_var := "AZURE_OPENAI_AD_TOKEN", strict := false }
      timeout := some 30
      max_retries := some 5
      default_headers := some []
      azure_ad_token_provider := none } }

/-- Concrete example: a client record with a leaked-looking resolved
value, used to show the serializer ignores the client entirely. -/
def alteredClient : AzureOpenAI :=
  { exampleComponent.client with api_key := some "resolved-secret-value" }

/-- A successfully resolved endpoint is never the empty string. -/
theorem resolveEndpoint_ok_ne_empty {a : Option String} {env : Env} {s : String}
    (h : resolveEndpoint a env = .ok s) : s ≠ "" := by
  unfold resolveEndpoint at h
  cases hp : pyOrStr a (env "AZURE_OPENAI_ENDPOINT") with
  | none => simp [hp] at h
  | some t =>
    rw [hp] at h
    by_cases ht : t = "" <;> simp [ht] at h
    exact fun hs => ht (h.trans hs)

/-- Resolving an explicitly supplied non-empty endpoint yields it. -/
theorem resolveEndpoint_some {env : Env} {s : String} (h : s ≠ "") :
    resolveEndpoint (some s) env = .ok s := by
  unfold resolveEndpoint pyOrStr
  simp [h]

/-- Characterization of successful construction: the result is the
field-assignment record over the individually resolved values, and
every resolution step succeeded. -/
theorem init_ok_iff (env : Env) (p : InitArgs) (c : AzureOpenAIGenerator) :
    AzureOpenAIGenerator.init env p = .ok c ↔
    ∃ ep tm mr akv atv,
      resolveEndpoint p.azure_endpoint env = .ok ep ∧
      (p.api_key.isNone && p.azure_ad_token.isNone) = false ∧
      resolveTimeout p.timeout env = .ok tm ∧
      resolveMaxRetries p.max_retries env = .ok mr ∧
      resolveOptSecret p.api_key env = .ok akv ∧
      resolveOptSecret p.azure_ad_token env = .ok atv ∧
      c = AzureOpenAIGenerator.make p ep tm mr akv atv := by
  unfold AzureOpenAIGenerator.init
  cases hep : resolveEndpoint p.azure_endpoint env with
  | error e => simp [hep]
  | ok ep =>
    cases hcred : p.api_key.isNone && p.azure_ad_token.isNone with
    | true => simp [hcred]
    | false =>
      simp only [Bool.false_eq_true, if_false]
      cases htm : resolveTimeout p.timeout env with
      | error e => simp [htm]
      | ok tm =>
        cases hmr : resolveMaxRetries p.max_retries env with
        | error e => simp [hmr]
        | ok mr =>
          cases hak : resolveOptSecret p.api_key env with
          | error e => simp [hak]
          | ok akv =>
            cases hat : resolveOptSecret p.azure_ad_token env with
            | error e => simp [hat]
            | ok atv => simp [hak, hat, eq_comm]

/-- Characterization of successful serialization: the document is the
typed wrapper over the configuration fields, with both secrets
serialized in reference form. -/
theorem to_dict_ok_iff (c : AzureOpenAIGenerator) (d : SerializedComponent) :
    c.to_dict = .ok d ↔
    ∃ akd atd,
      serializeOptSecret c.api_key = .ok akd ∧
      serializeOptSecret c.azure_ad_token = .ok atd ∧
      d = { type := azureGeneratorTypeName
            init_parameters := {
              azure_endpoint := some c.azure_endpoint
              azure_deployment := c.azure_deployment
              organization := c.organization
              api_version := c.api_version
              streaming_callback := c.streaming_callback.map serialize_callable
              generation_kwargs := some c.generation_kwargs
              system_prompt := c.system_prompt
              api_key := akd
              azure_ad_token := atd
              timeout := some c.timeout
              max_retries := some c.max_retries
              default_headers := some c.default_headers
              azure_ad_token_provider := c.azure_ad_token_provider.map serialize_callable } } := by
  unfold AzureOpenAIGenerator.to_dict
  cases hak : serializeOptSecret c.api_key with
  | error e => simp [hak]
  | ok akd =>
    cases hat : serializeOptSecret c.azure_ad_token with
    | error e => simp [hat]
    | ok atd => simp [hat, eq_comm]

/-- Deserializing the serialized form of an optional secret reference
recovers the reference. -/
theorem deserializeOptSecret_serializeOptSecret {o : Option Secret}
    {sd : Option SecretDict} (h : serializeOptSecret o = .ok sd) :
    deserializeOptSecret sd = .ok o := by
  cases o with
  | none =>
    simp only [serializeOptSecret] at h
    cases h
    rfl
  | some s =>
    cases s with
    | token v => simp [serializeOptSecret, Secret.to_dict, Except.map] at h
    | envVar n strict =>
      simp only [serializeOptSecret, Secret.to_dict, Except.map] at h
      cases h
      simp [deserializeOptSecret, Secret.from_dict, Except.map]

/-- Resolving the serialized name of an optional registered callable
recovers the handle. -/
theorem deserializeOptCallable_serialize {registry : List String}
    {o : Option CallableHandle} (h : ∀ x ∈ o, x.name ∈ registry) :
    deserializeOptCallable registry (o.map serialize_callable) = .ok o := by
  cases o with
  | none => rfl
  | some x =>
    have hx : x.name ∈ registry := h x rfl
    simp [deserializeOptCallable, deserialize_callable, serialize_callable, hx,
      Except.map]

/-- The Python idiom `m or \x7b\x7d` is the identity on maps already
normalized from `None`. -/
theorem pyOrDict_some_nil (l : List (String × String)) :
    pyOrDict (some l) [] = l := by
  unfold pyOrDict
  split <;> simp_all

/-- A falsy (`None` or empty) left operand of Python `or` yields the
right operand. -/
theorem pyOrStr_falsy {a b : Option String} (h : a = none ∨ a = some "") :
    pyOrStr a b = b := by
  rcases h with rfl | rfl <;> simp [pyOrStr]

/-- A failed endpoint resolution fails the whole construction. -/
theorem init_error_of_endpoint {env : Env} {p : InitArgs} {e : PyError}
    (h : resolveEndpoint p.azure_endpoint env = .error e) :
    AzureOpenAIGenerator.init env p = .error e := by
  unfold AzureOpenAIGenerator.init
  rw [h]

/-- C3: with the `azure_endpoint` argument absent or empty, the endpoint
is read from `AZURE_OPENAI_ENDPOINT`; if that is also absent or empty,
construction fails with the endpoint `ConfigurationError`; otherwise any
successfully constructed component stores the environment's value. -/
theorem c3_endpoint_resolution (env : Env) (p : InitArgs)
    (hArg : p.azure_endpoint = none ∨ p.azure_endpoint = some "") :
    ((env "AZURE_OPENAI_ENDPOINT" = none ∨ env "AZURE_OPENAI_ENDPOINT" = some "") →
      AzureOpenAIGenerator.init env p = .error (.configurationError
        "Please provide an Azure endpoint or set the environment variable AZURE_OPENAI_ENDPOINT.")) ∧
    (∀ s c, env "AZURE_OPENAI_ENDPOINT" = some s →
      AzureOpenAIGenerator.init env p = .ok c → c.azure_endpoint = s) := by
  constructor
  · intro hEnv
    apply init_error_of_endpoint
    unfold resolveEndpoint
    rw [pyOrStr_falsy hArg]
    rcases hEnv with h | h <;> rw [h] <;> simp
  · intro s c hEnv hok
    rcases (init_ok_iff env p c).mp hok with
      ⟨ep, tm, mr, akv, atv, hep, _, _, _, _, _, rfl⟩
    unfold resolveEndpoint at hep
    rw [pyOrStr_falsy hArg, hEnv] at hep
    by_cases hs : s = "" <;> simp [hs] at hep
    exact hep.symm

/-- C5: with `timeout` and `max_retries` arguments unset, the effective
values come from `OPENAI_TIMEOUT` / `OPENAI_MAX_RETRIES` when those
variables are set and parse, and are 30.0 / 5 otherwise; explicitly
supplied arguments take precedence over the environment. -/
theorem c5_numeric_defaults (env : Env) (p : InitArgs) (c : AzureOpenAIGenerator)
    (hok : AzureOpenAIGenerator.init env p = .ok c) :
    (p.timeout = none → env "OPENAI_TIMEOUT" = none → c.timeout = 30) ∧
    (∀ s q, p.timeout = none → env "OPENAI_TIMEOUT" = some s → pyFloat s = some q →
      c.timeout = q) ∧
    (∀ t, p.timeout = some t → c.timeout = t) ∧
    (p.max_retries = none → env "OPENAI_MAX_RETRIES" = none → c.max_retries = 5) ∧
    (∀ s r, p.max_retries = none → env "OPENAI_MAX_RETRIES" = some s → pyInt s = some r →
      c.max_retries = r) ∧
    (∀ r, p.max_retries = some r → c.max_retries = r) := by
  rcases (init_ok_iff env p c).mp hok with
    ⟨ep, tm, mr, akv, atv, _, _, htm, hmr, _, _, rfl⟩
  refine ⟨?_, ?_, ?_, ?_, ?_, ?_⟩
  · intro h0 h1
    unfold resolveTimeout at htm
    rw [h0, h1] at htm
    simpa [AzureOpenAIGenerator.make, show pyFloat "30.0" = some 30 by decide]
      using htm.symm
  · intro s q h0 h1 h2
    unfold resolveTimeout at htm
    rw [h0, h1] at htm
    simpa [AzureOpenAIGenerator.make, h2] using htm.symm
  · intro t h0
    unfold resolveTimeout at htm
    rw [h0] at htm
    simpa [AzureOpenAIGenerator.make] using htm.symm
  · intro h0 h1
    unfold resolveMaxRetries at hmr
    rw [h0, h1] at hmr
    simpa [AzureOpenAIGenerator.make, show pyInt "5" = some 5 by decide]
      using hmr.symm
  · intro s r h0 h1 h2
    unfold resolveMaxRetries at hmr
    rw [h0, h1] at hmr
    simpa [AzureOpenAIGenerator.make, h2] using hmr.symm
  · intro r h0
    unfold resolveMaxRetries at hmr
    rw [h0] at hmr
    simpa [AzureOpenAIGenerator.make] using hmr.symm

/-- C7: with `timeout` (resp. `max_retries`) unset and the corresponding
environment variable set to an unparseable string, construction fails
with the generic numeric-parse error, not a `ConfigurationError`. -/
theorem c7_parse_error_propagates (env : Env) (p : InitArgs) (ep : String)
    (hep : resolveEndpoint p.azure_endpoint env = .ok ep)
    (hcred : (p.api_key.isNone && p.azure_ad_token.isNone) = false) :
    (∀ s, p.timeout = none → env "OPENAI_TIMEOUT" = some s → pyFloat s = none →
      AzureOpenAIGenerator.init env p =
        .error (.parseError "could not convert string to float")) ∧
    (∀ s tm, p.max_retries = none → resolveTimeout p.timeout env = .ok tm →
      env "OPENAI_MAX_RETRIES" = some s → pyInt s = none →
      AzureOpenAIGenerator.init env p =
        .error (.parseError "invalid literal for int with base 10")) := by
  constructor
  · intro s h0 h1 h2
    unfold AzureOpenAIGenerator.init
    rw [hep]
    simp only [hcred, Bool.false_eq_true, if_false]
    have : resolveTimeout p.timeout env =
        .error (.parseError "could not convert string to float") := by
      unfold resolveTimeout
      rw [h0, h1]
      simp [h2]
    rw [this]
  · intro s tm h0 htm h1 h2
    unfold AzureOpenAIGenerator.init
    rw [hep]
    simp only [hcred, Bool.false_eq_true, if_false]
    rw [htm]
    have : resolveMaxRetries p.max_retries env =
        .error (.parseError "invalid literal for int with base 10") := by
      unfold resolveMaxRetries
      rw [h0, h1]
      simp [h2]
    rw [this]

/-- C6: with an endpoint present, `api_key` explicitly `None` and
`azure_ad_token` present as a secret reference, construction succeeds
(in particular no credential `ConfigurationError` is raised) and the
client receives a null api key together with the resolved ad token. -/
theorem c6_ad_token_only (env : Env) (p : InitArgs) (ep : String) (tm : ℚ)
    (mr : Int) (v : Option String)
    (hep : resolveEndpoint p.azure_endpoint env = .ok ep)
    (hak : p.api_key = none)
    (hat : p.azure_ad_token ≠ none)
    (htok : resolveOptSecret p.azure_ad_token env = .ok v)
    (htm : resolveTimeout p.timeout env = .ok tm)
    (hmr : resolveMaxRetries p.max_retries env = .ok mr) :
    AzureOpenAIGenerator.init env p =
      .ok (AzureOpenAIGenerator.make p ep tm mr none v) ∧
    (AzureOpenAIGenerator.make p ep tm mr none v).client.api_key = none ∧
    (AzureOpenAIGenerator.make p ep tm mr none v).client.azure_ad_token = v := by
  refine ⟨?_, rfl, rfl⟩
  apply (init_ok_iff env p _).mpr
  refine ⟨ep, tm, mr, none, v, hep, ?_, htm, hmr, ?_, htok, rfl⟩
  · cases h : p.azure_ad_token with
    | none => exact absurd h hat
    | some s => simp [h]
  · rw [hak]
    rfl

/-- C8: a successful construction stores the unresolved secret
references themselves, and the resolved values appear exactly as the
client constructor's arguments. -/
theorem c8_stores_unresolved_references (env : Env) (p : InitArgs)
    (c : AzureOpenAIGenerator) (hok : AzureOpenAIGenerator.init env p = .ok c) :
    c.api_key = p.api_key ∧
    c.azure_ad_token = p.azure_ad_token ∧
    resolveOptSecret p.api_key env = .ok c.client.api_key ∧
    resolveOptSecret p.azure_ad_token env = .ok c.client.azure_ad_token := by
  rcases (init_ok_iff env p c).mp hok with
    ⟨ep, tm, mr, akv, atv, _, _, _, _, hak, hat, rfl⟩
  exact ⟨rfl, rfl, hak, hat⟩

/-- C10: omitted (`None`) `generation_kwargs` and `default_headers` are
normalized to the empty mapping, a `None` deployment yields the model
literal `gpt-4o-mini`, and serialization emits the normalized values,
not nulls. -/
theorem c10_none_normalization (env : Env) (p : InitArgs)
    (c : AzureOpenAIGenerator) (hok : AzureOpenAIGenerator.init env p = .ok c) :
    (p.generation_kwargs = none → c.generation_kwargs = []) ∧
    (p.default_headers = none → c.default_headers = []) ∧
    (p.azure_deployment = none → c.model = "gpt-4o-mini") ∧
    (∀ d, c.to_dict = .ok d →
      (p.generation_kwargs = none →
        d.init_parameters.generation_kwargs = some []) ∧
      (p.default_headers = none →
        d.init_parameters.default_headers = some [])) := by
  rcases (init_ok_iff env p c).mp hok with
    ⟨ep, tm, mr, akv, atv, _, _, _, _, _, _, rfl⟩
  refine ⟨?_, ?_, ?_, ?_⟩
  · intro h
    simp [AzureOpenAIGenerator.make, h, pyOrDict]
  · intro h
    simp [AzureOpenAIGenerator.make, h, pyOrDict]
  · intro h
    simp [AzureOpenAIGenerator.make, h, pyOrStrD]
  · intro d hd
    rcases (to_dict_ok_iff _ d).mp hd with ⟨akd, atd, _, _, rfl⟩
    constructor
    · intro h
      simp [AzureOpenAIGenerator.make, h, pyOrDict]
    · intro h
      simp [AzureOpenAIGenerator.make, h, pyOrDict]

/-- C1 counterexample: construction with an endpoint but with *neither
credential supplied as an argument* uses the Python default values, the
non-strict environment-variable secret references; these are present
references, so the credential check does not fire and construction
succeeds, contradicting the claim that it fails with a
`ConfigurationError`. -/
theorem c1_default_credentials_construct :
    (AzureOpenAIGenerator.init envEmpty
      { azure_endpoint := some "https://example-resource.azure.openai.com/" }).isOk
      = true := by decide

/-- C1 amended: construction fails with the credential
`ConfigurationError` exactly when both `api_key` and `azure_ad_token`
are passed explicitly as `None` (absent references); the error is raised
synchronously, before the numeric defaults are read and before any
client is built. -/
theorem c1_both_credentials_none_fails (env : Env) (p : InitArgs) (ep : String)
    (hep : resolveEndpoint p.azure_endpoint env = .ok ep)
    (hak : p.api_key = none) (hat : p.azure_ad_token = none) :
    AzureOpenAIGenerator.init env p =
      .error (.configurationError
        "Please provide an API key or an Azure Active Directory token.") := by
  unfold AzureOpenAIGenerator.init
  rw [hep]
  simp [hak, hat]

/-- C4: with the endpoint, timeout and retry count supplied explicitly,
the serialized document is identical across any two environments the
component is constructed in — in particular across environments that
bind the secrets' variables to different values — and the `api_key` /
`azure_ad_token` entries are exactly the stored references' own
serialized forms (null when the reference is `None`). -/
theorem c4_serialization_independent_of_resolved_secrets
    (p : InitArgs) (envA envB : Env) (cA cB : AzureOpenAIGenerator) (s : String)
    (hs : p.azure_endpoint = some s) (hne : s ≠ "")
    (ht : p.timeout ≠ none) (hr : p.max_retries ≠ none)
    (hA : AzureOpenAIGenerator.init envA p = .ok cA)
    (hB : AzureOpenAIGenerator.init envB p = .ok cB) :
    cA.to_dict = cB.to_dict ∧
    (∀ d, cA.to_dict = .ok d →
      serializeOptSecret cA.api_key = .ok d.init_parameters.api_key ∧
      serializeOptSecret cA.azure_ad_token = .ok d.init_parameters.azure_ad_token) := by
  rcases (init_ok_iff envA p cA).mp hA with
    ⟨epA, tmA, mrA, akvA, atvA, hepA, _, htmA, hmrA, _, _, rfl⟩
  rcases (init_ok_iff envB p cB).mp hB with
    ⟨epB, tmB, mrB, akvB, atvB, hepB, _, htmB, hmrB, _, _, rfl⟩
  obtain ⟨t, ht⟩ := Option.ne_none_iff_exists'.mp ht
  obtain ⟨r, hr⟩ := Option.ne_none_iff_exists'.mp hr
  rw [hs, resolveEndpoint_some hne] at hepA hepB
  rw [ht] at htmA htmB
  rw [hr] at hmrA hmrB
  cases hepA
  cases hepB
  cases htmA
  cases htmB
  cases hmrA
  cases hmrB
  constructor
  · rfl
  · intro d hd
    rcases (to_dict_ok_iff _ d).mp hd with ⟨akd, atd, hakd, hatd, rfl⟩
    exact ⟨hakd, hatd⟩

/-- C9: `to_dict` is a projection of the stored configuration alone —
replacing the client leaves the document unchanged — and a produced
document carries the framework type name and an `init_parameters`
mapping with exactly the thirteen configuration keys, the two
callable-shaped fields rendered as their names when present and null
otherwise, and every other field copied verbatim. -/
theorem c9_to_dict_shape (c : AzureOpenAIGenerator) :
    (∀ k, AzureOpenAIGenerator.to_dict { c with client := k } = c.to_dict) ∧
    (∀ d, c.to_dict = .ok d →
      d.type = azureGeneratorTypeName ∧
      d.init_parameters.pairs.map Prod.fst =
        ["azure_endpoint", "azure_deployment", "organization", "api_version",
         "streaming_callback", "generation_kwargs", "system_prompt", "api_key",
         "azure_ad_token", "timeout", "max_retries", "default_headers",
         "azure_ad_token_provider"] ∧
      d.init_parameters.streaming_callback =
        c.streaming_callback.map serialize_callable ∧
      d.init_parameters.azure_ad_token_provider =
        c.azure_ad_token_provider.map serialize_callable ∧
      d.init_parameters.azure_endpoint = some c.azure_endpoint ∧
      d.init_parameters.azure_deployment = c.azure_deployment ∧
      d.init_parameters.organization = c.organization ∧
      d.init_parameters.api_version = c.api_version ∧
      d.init_parameters.generation_kwargs = some c.generation_kwargs ∧
      d.init_parameters.system_prompt = c.system_prompt ∧
      d.init_parameters.timeout = some c.timeout ∧
      d.init_parameters.max_retries = some c.max_retries ∧
      d.init_parameters.default_headers = some c.default_headers) := by
  constructor
  · intro k
    rfl
  · intro d hd
    rcases (to_dict_ok_iff c d).mp hd with ⟨akd, atd, _, _, rfl⟩
    exact ⟨rfl, rfl, rfl, rfl, rfl, rfl, rfl, rfl, rfl, rfl, rfl, rfl, rfl⟩

/-- C2 counterexample: a component constructed from a valid parameter
set (endpoint present, one credential present) whose credential is a
literal token secret: construction succeeds, but `Serialize` fails on
the token secret, so `Deserialize(Serialize(c))` does not succeed. -/
theorem c2_token_secret_roundtrip_fails :
    (AzureOpenAIGenerator.init envEmpty
        { azure_endpoint := some "https://example-resource.azure.openai.com/"
          api_key := some (.token "sk-live-token")
          azure_ad_token := none }).map
      (fun c => c.to_dict) =
    .ok (.error (.serializationError "Cannot serialize token-based secret.")) := by
  rfl

/-- C2 amended: for every successfully constructed component whose
serialization succeeds (which requires the secret references to be
serializable environment-variable references) and whose callables are
resolvable in the registry, `from_dict` of the produced document in the
same environment reconstructs the component exactly, field for field,
client included; and `from_dict` delegates to the constructor, so its
validation applies identically. -/
theorem c2_roundtrip (env : Env) (registry : List String)
    (p : InitArgs) (c : AzureOpenAIGenerator) (d : SerializedComponent)
    (hok : AzureOpenAIGenerator.init env p = .ok c)
    (hd : c.to_dict = .ok d)
    (hcb : ∀ x ∈ c.streaming_callback, x.name ∈ registry)
    (hpr : ∀ x ∈ c.azure_ad_token_provider, x.name ∈ registry) :
    AzureOpenAIGenerator.from_dict env registry d = .ok c := by
  rcases (to_dict_ok_iff c d).mp hd with ⟨akd, atd, hakd, hatd, rfl⟩
  unfold AzureOpenAIGenerator.from_dict
  rw [show ({ type := azureGeneratorTypeName, init_parameters := _ } :
        SerializedComponent).init_parameters.api_key = akd from rfl]
  rw [deserializeOptSecret_serializeOptSecret hakd]
  rw [show ({ type := azureGeneratorTypeName, init_parameters := _ } :
        SerializedComponent).init_parameters.azure_ad_token = atd from rfl]
  rw [deserializeOptSecret_serializeOptSecret hatd]
  rw [show ({ type := azureGeneratorTypeName, init_parameters := _ } :
        SerializedComponent).init_parameters.streaming_callback =
        c.streaming_callback.map serialize_callable from rfl]
  rw [deserializeOptCallable_serialize hcb]
  rw [show ({ type := azureGeneratorTypeName, init_parameters := _ } :
        SerializedComponent).init_parameters.azure_ad_token_provider =
        c.azure_ad_token_provider.map serialize_callable from rfl]
  rw [deserializeOptCallable_serialize hpr]
  simp only [if_pos rfl]
  rcases (init_ok_iff env p c).mp hok with
    ⟨ep, tm, mr, akv, atv, hep, hcred, htm, hmr, hak, hat, rfl⟩
  apply (init_ok_iff env _ _).mpr
  refine ⟨ep, tm, mr, akv, atv, ?_, ?_, ?_, ?_, ?_, ?_, ?_⟩
  · exact resolveEndpoint_some (resolveEndpoint_ok_ne_empty hep)
  · simpa [AzureOpenAIGenerator.make] using hcred
  · rfl
  · rfl
  · simpa [AzureOpenAIGenerator.make] using hak
  · simpa [AzureOpenAIGenerator.make] using hat
  · simp [AzureOpenAIGenerator.make, pyOrDict_some_nil]

/-- Witness for the amended C1: concrete arguments with explicit `None`
credentials and an endpoint satisfy the hypotheses, and construction
fails with the credential error. -/
theorem c1_both_credentials_none_fails_witness :
    resolveEndpoint noCredArgs.azure_endpoint envEmpty = .ok "https://e" ∧
    noCredArgs.api_key = none ∧
    noCredArgs.azure_ad_token = none ∧
    AzureOpenAIGenerator.init envEmpty noCredArgs =
      .error (.configurationError
        "Please provide an API key or an Azure Active Directory token.") :=
  ⟨by rfl, rfl, rfl,
    c1_both_credentials_none_fails envEmpty noCredArgs "https://e" (by rfl) rfl rfl⟩

/-- Witness for the amended C2: a concrete component round-trips through
serialization back to itself, client included. -/
theorem c2_roundtrip_witness :
    AzureOpenAIGenerator.init exampleEnv exampleArgs = .ok exampleComponent ∧
    AzureOpenAIGenerator.to_dict exampleComponent = .ok exampleDoc ∧
    AzureOpenAIGenerator.from_dict exampleEnv [] exampleDoc = .ok exampleComponent :=
  ⟨by rfl, by rfl,
    c2_roundtrip exampleEnv [] exampleArgs exampleComponent exampleDoc (by rfl) (by rfl)
      (fun x hx => Option.noConfusion hx) (fun x hx => Option.noConfusion hx)⟩

/-- Witness for C3: with no endpoint argument, construction fails in the
empty environment with the endpoint error, and succeeds in an
environment that sets the variable, storing the environment's value. -/
theorem c3_endpoint_resolution_witness :
    (({} : InitArgs).azure_endpoint = none ∨ ({} : InitArgs).azure_endpoint = some "") ∧
    AzureOpenAIGenerator.init envEmpty {} =
      .error (.configurationError
        "Please provide an Azure endpoint or set the environment variable AZURE_OPENAI_ENDPOINT.") ∧
    (AzureOpenAIGenerator.make {} "https://env-ep" 30 5 none none).azure_endpoint
      = "https://env-ep" :=
  ⟨Or.inl rfl,
    (c3_endpoint_resolution envEmpty {} (Or.inl rfl)).1 (Or.inl rfl),
    (c3_endpoint_resolution (envOf [("AZURE_OPENAI_ENDPOINT", "https://env-ep")]) {}
        (Or.inl rfl)).2 "https://env-ep"
      (AzureOpenAIGenerator.make {} "https://env-ep" 30 5 none none) rfl (by rfl)⟩

/-- Witness for C4: the same pinned arguments constructed in two
environments that give the api-key variable different secret values
serialize to the same document. -/
theorem c4_serialization_independent_witness :
    AzureOpenAIGenerator.init (envOf [("AZURE_OPENAI_API_KEY", "value-one")]) pinnedArgs =
      .ok (AzureOpenAIGenerator.make pinnedArgs "https://e" 30 5 (some "value-one") none) ∧
    AzureOpenAIGenerator.init (envOf [("AZURE_OPENAI_API_KEY", "value-two")]) pinnedArgs =
      .ok (AzureOpenAIGenerator.make pinnedArgs "https://e" 30 5 (some "value-two") none) ∧
    (AzureOpenAIGenerator.make pinnedArgs "https://e" 30 5 (some "value-one") none).to_dict =
      (AzureOpenAIGenerator.make pinnedArgs "https://e" 30 5 (some "value-two") none).to_dict :=
  ⟨by rfl, by rfl,
    (c4_serialization_independent_of_resolved_secrets pinnedArgs
        (envOf [("AZURE_OPENAI_API_KEY", "value-one")])
        (envOf [("AZURE_OPENAI_API_KEY", "value-two")])
        (AzureOpenAIGenerator.make pinnedArgs "https://e" 30 5 (some "value-one") none)
        (AzureOpenAIGenerator.make pinnedArgs "https://e" 30 5 (some "value-two") none)
        "https://e" rfl (by decide) (by decide) (by decide) (by rfl) (by rfl)).1⟩

/-- Witness for C5: with the timeout and retry arguments unset,
environment values "45" and "3" yield an effective timeout of 45.0 and
retry count 3. -/
theorem c5_numeric_defaults_witness :
    AzureOpenAIGenerator.init exampleEnv exampleArgs = .ok exampleComponent ∧
    exampleComponent.timeout = 45 ∧
    exampleComponent.max_retries = 3 :=
  ⟨by rfl,
    (c5_numeric_defaults exampleEnv exampleArgs exampleComponent (by rfl)).2.1
      "45" 45 rfl (by rfl) (by rfl),
    (c5_numeric_defaults exampleEnv exampleArgs exampleComponent (by rfl)).2.2.2.2.1
      "3" 3 rfl (by rfl) (by rfl)⟩

/-- Witness for C6: with `api_key` explicitly `None` and the default
ad-token reference resolvable, construction succeeds and the client
receives a null api key and the resolved token. -/
theorem c6_ad_token_only_witness :
    AzureOpenAIGenerator.init (envOf [("AZURE_OPENAI_AD_TOKEN", "ad-tok")]) adTokenArgs =
      .ok (AzureOpenAIGenerator.make adTokenArgs "https://e" 30 5 none (some "ad-tok")) ∧
    (AzureOpenAIGenerator.make adTokenArgs "https://e" 30 5 none
      (some "ad-tok")).client.api_key = none ∧
    (AzureOpenAIGenerator.make adTokenArgs "https://e" 30 5 none
      (some "ad-tok")).client.azure_ad_token = some "ad-tok" :=
  c6_ad_token_only (envOf [("AZURE_OPENAI_AD_TOKEN", "ad-tok")]) adTokenArgs
    "https://e" 30 5 (some "ad-tok") (by rfl) rfl (by decide) (by rfl) (by rfl) (by rfl)

/-- Witness for C7: an unparseable `OPENAI_TIMEOUT` (resp.
`OPENAI_MAX_RETRIES`) makes construction fail with the corresponding
parse error. -/
theorem c7_parse_error_propagates_witness :
    AzureOpenAIGenerator.init (envOf [("OPENAI_TIMEOUT", "not-a-number")]) exampleArgs =
      .error (.parseError "could not convert string to float") ∧
    AzureOpenAIGenerator.init (envOf [("OPENAI_MAX_RETRIES", "many")]) exampleArgs =
      .error (.parseError "invalid literal for int with base 10") :=
  ⟨(c7_parse_error_propagates (envOf [("OPENAI_TIMEOUT", "not-a-number")]) exampleArgs
      "https://e" (by rfl) (by rfl)).1 "not-a-number" rfl (by rfl) (by rfl),
    (c7_parse_error_propagates (envOf [("OPENAI_MAX_RETRIES", "many")]) exampleArgs
      "https://e" (by rfl) (by rfl)).2 "many" 30 rfl (by rfl) (by rfl) (by rfl)⟩

/-- Witness for C8: a concrete construction stores the unresolved
references and passes the resolved values only to the client. -/
theorem c8_stores_unresolved_references_witness :
    AzureOpenAIGenerator.init exampleEnv exampleArgs = .ok exampleComponent ∧
    (exampleComponent.api_key = exampleArgs.api_key ∧
     exampleComponent.azure_ad_token = exampleArgs.azure_ad_token ∧
     resolveOptSecret exampleArgs.api_key exampleEnv = .ok exampleComponent.client.api_key ∧
     resolveOptSecret exampleArgs.azure_ad_token exampleEnv =
       .ok exampleComponent.client.azure_ad_token) :=
  ⟨by rfl,
    c8_stores_unresolved_references exampleEnv exampleArgs exampleComponent (by rfl)⟩

/-- Witness for C9: serializing a concrete component ignores the client,
and the produced document has the expected type name, key list and
callable fields. -/
theorem c9_to_dict_shape_witness :
    AzureOpenAIGenerator.to_dict { exampleComponent with client := alteredClient } =
      exampleComponent.to_dict ∧
    AzureOpenAIGenerator.to_dict exampleComponent = .ok exampleDoc ∧
    exampleDoc.type = azureGeneratorTypeName ∧
    exampleDoc.init_parameters.pairs.map Prod.fst =
      ["azure_endpoint", "azure_deployment", "organization", "api_version",
       "streaming_callback", "generation_kwargs", "system_prompt", "api_key",
       "azure_ad_token", "timeout", "max_retries", "default_headers",
       "azure_ad_token_provider"] ∧
    exampleDoc.init_parameters.streaming_callback =
      exampleComponent.streaming_callback.map serialize_callable :=
  ⟨(c9_to_dict_shape exampleComponent).1 alteredClient, by rfl,
    ((c9_to_dict_shape exampleComponent).2 exampleDoc (by rfl)).1,
    ((c9_to_dict_shape exampleComponent).2 exampleDoc (by rfl)).2.1,
    ((c9_to_dict_shape exampleComponent).2 exampleDoc (by rfl)).2.2.1⟩

/-- Witness for C10: unset maps are stored and serialized as empty
mappings, and a `None` deployment yields the model default. -/
theorem c10_none_normalization_witness :
    AzureOpenAIGenerator.init envEmpty noDeploymentArgs = .ok noDeploymentComponent ∧
    noDeploymentComponent.generation_kwargs = [] ∧
    noDeploymentComponent.default_headers = [] ∧
    noDeploymentComponent.model = "gpt-4o-mini" ∧
    AzureOpenAIGenerator.to_dict noDeploymentComponent = .ok noDeploymentDoc ∧
    noDeploymentDoc.init_parameters.generation_kwargs = some [] ∧
    noDeploymentDoc.init_parameters.default_headers = some [] :=
  ⟨by rfl,
    (c10_none_normalization envEmpty noDeploymentArgs noDeploymentComponent (by rfl)).1 rfl,
    (c10_none_normalization envEmpty noDeploymentArgs noDeploymentComponent (by rfl)).2.1 rfl,
    (c10_none_normalization envEmpty noDeploymentArgs noDeploymentComponent (by rfl)).2.2.1 rfl,
    by rfl,
    ((c10_none_normalization envEmpty noDeploymentArgs noDeploymentComponent (by rfl)).2.2.2
      noDeploymentDoc (by rfl)).1 rfl,
    ((c10_none_normalization envEmpty noDeploymentArgs noDeploymentComponent (by rfl)).2.2.2
      noDeploymentDoc (by rfl)).2 rfl⟩
